import Mathlib

/-!
Verification of the quantification core of `app/pipeline.py`
(centiloid_container_with_dicom_qc).

Python floats are modelled by `PFloat`: not-a-number, signed infinities, and
finite values as exact rationals (the usual idealisation: rounding of finite
arithmetic is not modelled, but the nan/infinity propagation rules of IEEE-754
— which the claims are about — are).  NumPy arrays are modelled as lists of
`PFloat` over the flattened, co-located samples.
-/

/-- Model of a Python/NumPy double: nan, ±infinity (`inf true` = +∞),
or a finite value. -/
inductive PFloat where
  | nan : PFloat
  | inf : Bool → PFloat
  | fin : ℚ → PFloat
deriving DecidableEq

namespace PFloat

/-- `math.isnan` / `np.isnan`. -/
def isNan : PFloat → Bool
  | nan => true
  | _ => false

/-- Python truthiness of a float: only `0.0` is falsy; nan and the infinities
are truthy (`if r:` in `compute_suvr`). -/
def truthy : PFloat → Bool
  | fin q => decide (q ≠ 0)
  | _ => true

/-- Elementwise `x > 0` (IEEE comparison: nan compares false). -/
def gtZero : PFloat → Bool
  | nan => false
  | inf s => s
  | fin q => decide (0 < q)

/-- The Python literal `0.5`, which is exactly representable. -/
def half : ℚ := Rat.mk' 1 2 (by decide) (by decide)

/-- Elementwise `x > 0.5` (IEEE comparison: nan compares false). -/
def gtHalf : PFloat → Bool
  | nan => false
  | inf s => s
  | fin q => decide (half < q)

/-- IEEE-754 multiplication on the model: nan is absorbing; `±∞ · 0 = nan`;
signs of infinities follow the sign rule. -/
def mul : PFloat → PFloat → PFloat
  | nan, _ => nan
  | _, nan => nan
  | inf s, inf t => inf (s == t)
  | inf s, fin q => if q = 0 then nan else inf (s == decide (0 < q))
  | fin q, inf s => if q = 0 then nan else inf (s == decide (0 < q))
  | fin a, fin b => fin (a * b)

/-- IEEE-754 addition on the model: nan is absorbing; `∞ + (−∞) = nan`. -/
def add : PFloat → PFloat → PFloat
  | nan, _ => nan
  | _, nan => nan
  | inf s, inf t => if s == t then inf s else nan
  | inf s, fin _ => inf s
  | fin _, inf s => inf s
  | fin a, fin b => fin (a + b)

/-- IEEE-754 division on the model: nan is absorbing; `∞/∞ = nan`;
`finite/∞ = 0`.  A finite value divided by finite `0` raises
`ZeroDivisionError` in Python; every division in the embedded code is guarded
so that the divisor is never finite zero, and that unreachable case is mapped
to nan here. -/
def div : PFloat → PFloat → PFloat
  | nan, _ => nan
  | _, nan => nan
  | inf _, inf _ => nan
  | inf s, fin q => if q = 0 then nan else inf (s == decide (0 < q))
  | fin _, inf _ => fin 0
  | fin a, fin b => if b = 0 then nan else fin (a / b)

end PFloat

/-- ASCII lowering of one character, modelling Python `str.lower()` on the
ASCII keys used by the calibration tables. -/
def lowerChar (c : Char) : Char :=
  if 'A' ≤ c ∧ c ≤ 'Z' then Char.ofNat (c.toNat + 32) else c

/-- Python `mode.lower()` (ASCII). -/
def pyLower (s : String) : String := String.mk (s.data.map lowerChar)

/-- `arr[mask > 0]`: the volume samples whose co-located mask sample is > 0. -/
def select (arr mask : List PFloat) : List PFloat :=
  ((arr.zip mask).filter (fun p => p.2.gtZero)).map Prod.fst

/-- Sum of a list of model floats (fold of IEEE addition from `0.0`). -/
def psum (l : List PFloat) : PFloat := l.foldl PFloat.add (PFloat.fin 0)

/-- `np.nanmean`: arithmetic mean of the non-nan entries; nan (with a runtime
warning) when every entry is nan. -/
def nanmean (vals : List PFloat) : PFloat :=
  let ws := vals.filter (fun v => !v.isNan)
  if ws.isEmpty then PFloat.nan
  else PFloat.div (psum ws) (PFloat.fin (ws.length : ℚ))

/-- `mean_in_mask` (pipeline.py lines 232-235):
`vals = arr[mask > 0]; if vals.size == 0: return float("nan");
return float(np.nanmean(vals))`. -/
def mean_in_mask (arr mask : List PFloat) : PFloat :=
  let vals := select arr mask
  if vals.isEmpty then PFloat.nan else nanmean vals

/-- The ratio expression of `compute_suvr` (pipeline.py line 240):
`float(t/r) if r and not np.isnan(r) else float("nan")`. -/
def suvr_ratio (t r : PFloat) : PFloat :=
  if r.truthy && !r.isNan then t.div r else PFloat.nan

/-- `compute_suvr` (pipeline.py lines 237-240): region means of the target and
reference masks, then the guarded ratio. -/
def compute_suvr (pet_data tmask rmask : List PFloat) :
    PFloat × PFloat × PFloat :=
  let t := mean_in_mask pet_data tmask
  let r := mean_in_mask pet_data rmask
  (suvr_ratio t r, t, r)

/-- One calibration-table entry: optional slope and intercept (the YAML file
holds numeric literals, hence finite values). -/
structure Entry where
  slope : Option ℚ
  intercept : Option ℚ
deriving DecidableEq

/-- A mode's sub-table: tracer key → entry (Python dict as association list). -/
abbrev Table := List (String × Entry)

/-- The whole calibration table: mode key → sub-table. -/
abbrev Calibs := List (String × Table)

/-- Key resolution of `convert_to_scale`: the lowercased mode selects a
sub-table (`if mode not in calibs: return suvr`), then
`key = tracer if tracer in table else ('generic' if 'generic' in table
else None)`. -/
def resolveEntry (calibs : Calibs) (mode tracer : String) : Option Entry :=
  match List.lookup (pyLower mode) calibs with
  | none => none
  | some table =>
    match List.lookup tracer table with
    | some e => some e
    | none => List.lookup "generic" table

/-- `convert_to_scale` (pipeline.py lines 248-256): identity when no entry
resolves, otherwise `float(slope)*suvr + float(intercept)` with
`table[key].get('slope', 1.0)` and `table[key].get('intercept', 0.0)`. -/
def convert_to_scale (suvr : PFloat) (tracer mode : String)
    (calibs : Calibs) : PFloat :=
  match resolveEntry calibs mode tracer with
  | none => suvr
  | some e =>
      PFloat.add (PFloat.mul (PFloat.fin (e.slope.getD 1)) suvr)
        (PFloat.fin (e.intercept.getD 0))

/-- `resample_mask_to_target` (pipeline.py lines 242-246).  The
nearest-neighbour regridding itself is nilearn's `resample_to_img`, an
external library call whose output grid values are modelled here as an
arbitrary list `resampled`; the function then re-binarises:
`(data > 0.5).astype(np.uint8)`. -/
def resample_mask_to_target (resampled : List PFloat) : List Nat :=
  resampled.map (fun v => if v.gtHalf then 1 else 0)

/-- argparse validation of `--reg-mode` in `main` (pipeline.py line 567):
`choices=["rigid","affine"]` rejects any other string with an
`invalid choice` error before any pipeline step runs. -/
def parse_reg_mode (s : String) : Except String String :=
  if s = "rigid" ∨ s = "affine" then Except.ok s
  else Except.error ("argument --reg-mode: invalid choice: " ++ s)

/-- Which transform model `pet_to_template_registration` solves
(pipeline.py lines 167-187): the `mode == "affine"` branch, else rigid. -/
inductive RegBranch where
  | rigid : RegBranch
  | affine : RegBranch
deriving DecidableEq

/-- Branch selection inside `pet_to_template_registration`. -/
def registration_branch (mode : String) : RegBranch :=
  if mode = "affine" then RegBranch.affine else RegBranch.rigid

/-- The run as `main` sequences it: argparse validates `--reg-mode` first,
and only a validated value reaches `pet_to_template_registration`. -/
def run_registration_step (regModeArg : String) : Except String RegBranch :=
  (parse_reg_mode regModeArg).map registration_branch

/-! ## Helper lemmas -/

theorem PFloat.mul_nan_right (x : PFloat) : PFloat.mul x PFloat.nan = PFloat.nan := by
  cases x <;> rfl

theorem PFloat.add_nan_left (x : PFloat) : PFloat.add PFloat.nan x = PFloat.nan := by
  cases x <;> rfl

theorem PFloat.mul_fin_one_left (x : PFloat) :
    PFloat.mul (PFloat.fin 1) x = x := by
  cases x with
  | nan => rfl
  | inf s => cases s <;> decide
  | fin a => simp [PFloat.mul]

theorem PFloat.add_fin_zero_right (x : PFloat) :
    PFloat.add x (PFloat.fin 0) = x := by
  cases x with
  | nan => rfl
  | inf s => rfl
  | fin a => simp [PFloat.add]

/-- A demonstration calibration table used by concrete witnesses. -/
def demoCalibs : Calibs :=
  [("amyloid", [("FBP", ⟨some 2, some 3⟩), ("generic", ⟨some 1, some 0⟩)]),
   ("tau", [("MK6240", ⟨none, some 1⟩)])]

/-! ## Claims -/

/-- C3: for every volume and every mask with zero overlap (no co-located mask
sample > 0), `mean_in_mask` returns not-a-number, as a normal return value of
the (total) function — never a numeric 0. -/
theorem mean_in_mask_zero_overlap_nan (arr mask : List PFloat)
    (h : select arr mask = []) : mean_in_mask arr mask = PFloat.nan := by
  simp [mean_in_mask, h]

theorem mean_in_mask_zero_overlap_nan_witness :
    select [PFloat.fin 2] [PFloat.fin 0] = [] ∧
    mean_in_mask [PFloat.fin 2] [PFloat.fin 0] = PFloat.nan :=
  ⟨by decide, mean_in_mask_zero_overlap_nan _ _ (by decide)⟩

/-- C5: any `--reg-mode` string other than `rigid` or `affine` is rejected by
argparse with a configuration error before the registration step runs, so
registration is never silently performed under a defaulted mode. -/
theorem reg_mode_validated (s : String) (h1 : s ≠ "rigid") (h2 : s ≠ "affine") :
    run_registration_step s =
      Except.error ("argument --reg-mode: invalid choice: " ++ s) := by
  have hcond : ¬(s = "rigid" ∨ s = "affine") := by
    rintro (rfl | rfl) <;> simp at h1 h2
  simp [run_registration_step, parse_reg_mode, hcond, Except.map]

theorem reg_mode_validated_witness :
    "elastic" ≠ "rigid" ∧ "elastic" ≠ "affine" ∧
    run_registration_step "elastic" =
      Except.error ("argument --reg-mode: invalid choice: " ++ "elastic") :=
  ⟨by decide, by decide, reg_mode_validated "elastic" (by decide) (by decide)⟩

/-- C6: every value of a resampled mask is 0 or 1: whatever grid values the
nearest-neighbour resample produces, the re-threshold `(data > 0.5)` followed
by the cast to `uint8` yields only 0 and 1 — no fractional labels. -/
theorem resample_mask_binary (resampled : List PFloat) (x : Nat)
    (hx : x ∈ resample_mask_to_target resampled) : x = 0 ∨ x = 1 := by
  rcases List.mem_map.mp hx with ⟨v, _, hv⟩
  by_cases hg : v.gtHalf
  · right
    simpa [hg] using hv.symm
  · left
    simpa [hg] using hv.symm

theorem resample_mask_binary_witness :
    (1 ∈ resample_mask_to_target [PFloat.fin 1, PFloat.fin 0, PFloat.nan]) ∧
    (1 = 0 ∨ 1 = 1) :=
  ⟨by decide,
   resample_mask_binary [PFloat.fin 1, PFloat.fin 0, PFloat.nan] 1 (by decide)⟩

/-- C1: a zero or nan reference mean makes the ratio nan, and a nan ratio
stays nan through every calibration path of `convert_to_scale` (matched entry,
generic fallback, or identity) — no default numeric value is substituted. -/
theorem nan_ratio_propagates (t sv : PFloat) (tracer mode : String)
    (calibs : Calibs) (h : sv.isNan = true) :
    (suvr_ratio t (PFloat.fin 0)).isNan = true ∧
    (suvr_ratio t PFloat.nan).isNan = true ∧
    (convert_to_scale sv tracer mode calibs).isNan = true := by
  refine ⟨by simp [suvr_ratio, PFloat.truthy, PFloat.isNan],
          by simp [suvr_ratio, PFloat.isNan], ?_⟩
  have hsv : sv = PFloat.nan := by cases sv <;> simp [PFloat.isNan] at h ⊢
  subst hsv
  unfold convert_to_scale
  cases resolveEntry calibs mode tracer with
  | none => rfl
  | some e => simp [PFloat.mul_nan_right, PFloat.add_nan_left, PFloat.isNan]

theorem nan_ratio_propagates_witness :
    PFloat.nan.isNan = true ∧
    ((suvr_ratio (PFloat.fin 1) (PFloat.fin 0)).isNan = true ∧
     (suvr_ratio (PFloat.fin 1) PFloat.nan).isNan = true ∧
     (convert_to_scale PFloat.nan "FBP" "amyloid" demoCalibs).isNan = true) :=
  ⟨rfl, nan_ratio_propagates (PFloat.fin 1) PFloat.nan "FBP" "amyloid"
    demoCalibs rfl⟩

/-- C7: with at least one co-located mask sample > 0, `mean_in_mask` is the
NaN-aware mean of exactly the selected samples: nan samples are excluded (not
treated as zero), unselected samples are never included, and on nan-free
selections it is the plain arithmetic mean (sum divided by count). -/
theorem mean_in_mask_nan_aware (arr mask : List PFloat)
    (h : select arr mask ≠ []) :
    mean_in_mask arr mask = nanmean (select arr mask) ∧
    (∀ (v : PFloat) (xs : List PFloat), v.isNan = true →
      nanmean (v :: xs) = nanmean xs) ∧
    (∀ xs : List PFloat, xs ≠ [] → (∀ v ∈ xs, v.isNan = false) →
      nanmean xs = PFloat.div (psum xs) (PFloat.fin (xs.length : ℚ))) := by
  refine ⟨by simp [mean_in_mask, h], ?_, ?_⟩
  · intro v xs hv
    simp [nanmean, List.filter_cons, hv]
  · intro xs hne hall
    have hfil : xs.filter (fun v => !v.isNan) = xs := by
      apply List.filter_eq_self.mpr
      intro a ha
      simp [hall a ha]
    simp [nanmean, hfil, hne]

theorem mean_in_mask_nan_aware_witness :
    select [PFloat.fin 2, PFloat.nan, PFloat.fin 4]
        [PFloat.fin 1, PFloat.fin 1, PFloat.fin 1] ≠ [] ∧
    mean_in_mask [PFloat.fin 2, PFloat.nan, PFloat.fin 4]
        [PFloat.fin 1, PFloat.fin 1, PFloat.fin 1] =
      nanmean (select [PFloat.fin 2, PFloat.nan, PFloat.fin 4]
        [PFloat.fin 1, PFloat.fin 1, PFloat.fin 1]) :=
  ⟨by decide, (mean_in_mask_nan_aware _ _ (by decide)).1⟩

/-- C2: `convert_to_scale` resolves coefficients by (1) the exact tracer key
in the lowercased mode's sub-table, (2) the `generic` key there, (3) identity
when neither key (or the mode itself) is present; a matched entry yields
`slope·suvr + intercept` with slope defaulting to 1.0 and intercept to 0.0
when omitted. -/
theorem convert_to_scale_lookup_order (suvr : PFloat) (tracer mode : String)
    (calibs : Calibs) (tbl : Table) (e : Entry) :
    (List.lookup (pyLower mode) calibs = none →
      convert_to_scale suvr tracer mode calibs = suvr) ∧
    (List.lookup (pyLower mode) calibs = some tbl →
      List.lookup tracer tbl = some e →
      convert_to_scale suvr tracer mode calibs =
        PFloat.add (PFloat.mul (PFloat.fin (e.slope.getD 1)) suvr)
          (PFloat.fin (e.intercept.getD 0))) ∧
    (List.lookup (pyLower mode) calibs = some tbl →
      List.lookup tracer tbl = none →
      List.lookup "generic" tbl = some e →
      convert_to_scale suvr tracer mode calibs =
        PFloat.add (PFloat.mul (PFloat.fin (e.slope.getD 1)) suvr)
          (PFloat.fin (e.intercept.getD 0))) ∧
    (List.lookup (pyLower mode) calibs = some tbl →
      List.lookup tracer tbl = none →
      List.lookup "generic" tbl = none →
      convert_to_scale suvr tracer mode calibs = suvr) := by
  refine ⟨?_, ?_, ?_, ?_⟩
  · intro h1
    simp [convert_to_scale, resolveEntry, h1]
  · intro h1 h2
    simp [convert_to_scale, resolveEntry, h1, h2]
  · intro h1 h2 h3
    simp [convert_to_scale, resolveEntry, h1, h2, h3]
  · intro h1 h2 h3
    simp [convert_to_scale, resolveEntry, h1, h2, h3]

theorem convert_to_scale_lookup_order_witness :
    convert_to_scale (PFloat.fin 5) "FBP" "petmode" demoCalibs = PFloat.fin 5 ∧
    convert_to_scale (PFloat.fin 5) "FBP" "AMYLOID" demoCalibs =
      PFloat.add (PFloat.mul (PFloat.fin 2) (PFloat.fin 5)) (PFloat.fin 3) ∧
    convert_to_scale (PFloat.fin 5) "NAV4694" "amyloid" demoCalibs =
      PFloat.add (PFloat.mul (PFloat.fin 1) (PFloat.fin 5)) (PFloat.fin 0) ∧
    convert_to_scale (PFloat.fin 5) "FTP" "tau" demoCalibs = PFloat.fin 5 :=
  ⟨(convert_to_scale_lookup_order (PFloat.fin 5) "FBP" "petmode" demoCalibs
      [] ⟨none, none⟩).1 rfl,
   (convert_to_scale_lookup_order (PFloat.fin 5) "FBP" "AMYLOID" demoCalibs
      [("FBP", ⟨some 2, some 3⟩), ("generic", ⟨some 1, some 0⟩)]
      ⟨some 2, some 3⟩).2.1 rfl rfl,
   (convert_to_scale_lookup_order (PFloat.fin 5) "NAV4694" "amyloid" demoCalibs
      [("FBP", ⟨some 2, some 3⟩), ("generic", ⟨some 1, some 0⟩)]
      ⟨some 1, some 0⟩).2.2.1 rfl rfl rfl,
   (convert_to_scale_lookup_order (PFloat.fin 5) "FTP" "tau" demoCalibs
      [("MK6240", ⟨none, some 1⟩)] ⟨none, none⟩).2.2.2 rfl rfl rfl⟩

/-- C8: when the resolved calibration entry is `{slope: 1, intercept: 0}`,
`convert_to_scale` is the identity on the SUVR value. -/
theorem convert_identity_entry (suvr : PFloat) (tracer mode : String)
    (calibs : Calibs) (e : Entry)
    (h : resolveEntry calibs mode tracer = some e)
    (hs : e.slope = some 1) (hi : e.intercept = some 0) :
    convert_to_scale suvr tracer mode calibs = suvr := by
  simp [convert_to_scale, h, hs, hi, PFloat.mul_fin_one_left,
    PFloat.add_fin_zero_right]

theorem convert_identity_entry_witness :
    resolveEntry [("amyloid", [("generic", (⟨some 1, some 0⟩ : Entry))])]
        "amyloid" "PIB" = some ⟨some 1, some 0⟩ ∧
    convert_to_scale (PFloat.fin 7) "PIB" "amyloid"
        [("amyloid", [("generic", ⟨some 1, some 0⟩)])] = PFloat.fin 7 :=
  ⟨rfl, convert_identity_entry (PFloat.fin 7) "PIB" "amyloid"
    [("amyloid", [("generic", ⟨some 1, some 0⟩)])] ⟨some 1, some 0⟩
    rfl rfl rfl⟩

/-- C4 counterexample: with target mean 1 and reference mean −1 (not a finite
positive number), the guard `if r and not np.isnan(r)` still passes, and the
ratio is the numeric value −1, not nan — refuting "defined only if the
reference mean is finite and positive". -/
theorem suvr_ratio_defined_for_negative_ref :
    suvr_ratio (PFloat.fin 1) (PFloat.fin (-1)) = PFloat.fin (-1) ∧
    (suvr_ratio (PFloat.fin 1) (PFloat.fin (-1))).isNan = false := by
  have h : suvr_ratio (PFloat.fin 1) (PFloat.fin (-1)) =
      PFloat.fin (1 / (-1)) := rfl
  have hq : (1 / (-1) : ℚ) = -1 := by simp
  rw [h, hq]
  exact ⟨rfl, rfl⟩

/-- C4 (amended): the ratio is nan exactly when the reference mean is zero or
nan, the target mean is nan, or both means are infinite; any other reference
mean — including a negative or infinite one — yields a numeric ratio. -/
theorem suvr_ratio_nan_characterization (t r : PFloat) :
    ((suvr_ratio t r).isNan = true) ↔
      (r = PFloat.fin 0 ∨ r = PFloat.nan ∨ t = PFloat.nan ∨
        ((∃ s, t = PFloat.inf s) ∧ ∃ s, r = PFloat.inf s)) := by
  cases r with
  | nan => cases t <;> simp [suvr_ratio, PFloat.isNan]
  | inf s =>
    cases t <;> simp [suvr_ratio, PFloat.truthy, PFloat.isNan, PFloat.div]
  | fin q =>
    by_cases hq : q = 0
    · subst hq
      cases t <;> simp [suvr_ratio, PFloat.truthy, PFloat.isNan]
    · cases t <;>
        simp [suvr_ratio, PFloat.truthy, PFloat.isNan, PFloat.div, hq]

/-- C9: the ratio is invariant to a uniform positive rescaling of both means:
scaling target and reference by the same positive finite constant leaves the
guarded ratio unchanged (for a finite positive reference mean). -/
theorem suvr_ratio_scale_invariant (t : PFloat) (q c : ℚ)
    (hq : 0 < q) (hc : 0 < c) :
    suvr_ratio (PFloat.mul (PFloat.fin c) t)
        (PFloat.mul (PFloat.fin c) (PFloat.fin q)) =
      suvr_ratio t (PFloat.fin q) := by
  have hc0 : c ≠ 0 := ne_of_gt hc
  have hq0 : q ≠ 0 := ne_of_gt hq
  have hcq : c * q ≠ 0 := mul_ne_zero hc0 hq0
  have hmul : PFloat.mul (PFloat.fin c) (PFloat.fin q) = PFloat.fin (c * q) :=
    rfl
  rw [hmul]
  cases t with
  | nan =>
    simp [PFloat.mul_nan_right, suvr_ratio, PFloat.truthy, PFloat.isNan,
      PFloat.div, hcq, hq0]
  | inf s =>
    have h1 : PFloat.mul (PFloat.fin c) (PFloat.inf s) = PFloat.inf s := by
      simp [PFloat.mul, hc0, hc]
    rw [h1]
    simp [suvr_ratio, PFloat.truthy, PFloat.isNan, PFloat.div, hcq, hq0, hq,
      mul_pos hc hq]
  | fin a =>
    have h2 : PFloat.mul (PFloat.fin c) (PFloat.fin a) = PFloat.fin (c * a) :=
      rfl
    rw [h2]
    simp [suvr_ratio, PFloat.truthy, PFloat.isNan, PFloat.div, hcq, hq0]
    rw [mul_div_mul_left a q hc0]

theorem suvr_ratio_scale_invariant_witness :
    (0 < (2 : ℚ)) ∧ (0 < (5 : ℚ)) ∧
    suvr_ratio (PFloat.mul (PFloat.fin 5) (PFloat.fin 3))
        (PFloat.mul (PFloat.fin 5) (PFloat.fin 2)) =
      suvr_ratio (PFloat.fin 3) (PFloat.fin 2) :=
  ⟨by decide, by decide,
   suvr_ratio_scale_invariant (PFloat.fin 3) 2 5 (by decide) (by decide)⟩

/-- C10: the mode key is matched case-insensitively (modes with the same
lowering are interchangeable; `AMYLOID` selects a sub-table keyed `amyloid`),
while the tracer key is matched case-sensitively (`pib` does not match an
entry keyed `PiB` and falls through to the generic/identity fallback). -/
theorem convert_mode_case_insensitive (suvr : PFloat) :
    (∀ (tracer mode mode' : String) (calibs : Calibs),
      pyLower mode = pyLower mode' →
      convert_to_scale suvr tracer mode calibs =
        convert_to_scale suvr tracer mode' calibs) ∧
    (∀ (tracer : String) (tbl : Table) (rest : Calibs),
      convert_to_scale suvr tracer "AMYLOID" (("amyloid", tbl) :: rest) =
        convert_to_scale suvr tracer "amyloid" (("amyloid", tbl) :: rest)) ∧
    (∀ e : Entry,
      convert_to_scale suvr "pib" "amyloid" [("amyloid", [("PiB", e)])] =
        suvr) := by
  refine ⟨?_, ?_, ?_⟩
  · intro tracer mode mode' calibs h
    simp [convert_to_scale, resolveEntry, h]
  · intro tracer tbl rest
    have h : pyLower "AMYLOID" = pyLower "amyloid" := by decide
    simp [convert_to_scale, resolveEntry, h]
  · intro e
    rfl

theorem convert_mode_case_insensitive_witness :
    pyLower "AMYLOID" = pyLower "amyloid" ∧
    convert_to_scale (PFloat.fin 5) "FBP" "AMYLOID" demoCalibs =
      convert_to_scale (PFloat.fin 5) "FBP" "amyloid" demoCalibs ∧
    convert_to_scale (PFloat.fin 5) "pib" "amyloid"
        [("amyloid", [("PiB", (⟨some 2, some 3⟩ : Entry))])] = PFloat.fin 5 :=
  ⟨by decide,
   (convert_mode_case_insensitive (PFloat.fin 5)).1 "FBP" "AMYLOID" "amyloid"
     demoCalibs (by decide),
   (convert_mode_case_insensitive (PFloat.fin 5)).2.2 ⟨some 2, some 3⟩⟩
